import Mathlib

/-!
Shallow embedding of `src/nomad_ubik_plugin/schema_packages/XRFschema.py`
(the XRF measurement schema of the nomad-UBIK-plugin repository).

Modelling conventions:
* A Python `dict` is an association list `List (String × V)`; iteration order is
  the list order (Python dicts preserve insertion order), `.values()` is
  `List.map Prod.snd`, and `d.get(k, default)` on the raw input is modelled by
  making each known key an `Option`-typed field of a structure, `none` standing
  for an absent key (or a present `None` value, which `dict.get` cannot
  distinguish from absence either).
* Numeric values (mass fractions, intensities, thicknesses) undergo no
  arithmetic anywhere in the pipeline — they are only passed through — so they
  are modelled as exact rationals `Rat`.
* `Datetime` values are likewise only passed through and are modelled as
  opaque strings.
* Fallible code is `Except String`: the only statement in `write_xrf_data`
  that can raise is `data.get('layers', []).items()` — when the `'layers'`
  key is absent the default is the *list* `[]`, and `list.items()` raises
  `AttributeError`.
* The external per-entity `normalize(archive, logger)` hooks (on
  `CompositeSystemReference`, `XRFResult`, `XRFSettings`) are modelled as the
  identity on the embedded fields: per the schema's interface they may only
  derive auxiliary display fields and must not change the identifier /
  equality-relevant fields embedded here.
-/

/-- Raw attribute dict of one element inside a layer, as produced by the
reader: each field is read with `attributes.get(...)`, absent keys give
`None`. -/
structure RawAttrs where
  mass_fraction : Option Rat := none
  atomic_fraction : Option Rat := none
  line : Option String := none
  intensity_peak : Option Rat := none
  intensity_background : Option Rat := none
  intensity_background_2 : Option Rat := none
  deriving DecidableEq

/-- Raw dict of one layer: `content.get('thickness', None)` and
`content.get('elements', {})`; `elements = none` models an absent
`'elements'` key (the code's default `{}` makes the element loop empty). -/
structure RawLayerContent where
  thickness : Option Rat := none
  elements : Option (List (String × RawAttrs)) := none
  deriving DecidableEq

/-- One raw measurement entry (a value of the reader's top-level dict).
`layers = none` models an absent `'layers'` key. -/
structure RawEntry where
  application : Option String := none
  date : Option String := none
  sample_name : Option String := none
  layers : Option (List (String × RawLayerContent)) := none
  deriving DecidableEq

/-- `XRFElementalComposition`: `ElementalComposition` extended with XRF
properties (line, peak and background intensities). -/
structure XRFElementalComposition where
  element : Option String := none
  mass_fraction : Option Rat := none
  atomic_fraction : Option Rat := none
  line : Option String := none
  intensity_peak : Option Rat := none
  intensity_background : Option Rat := none
  intensity_background_2 : Option Rat := none
  deriving DecidableEq

/-- `XRFLayer`: name, thickness (nm) and a repeating `elements` subsection. -/
structure XRFLayer where
  name : Option String := none
  thickness : Option Rat := none
  elements : List XRFElementalComposition := []
  deriving DecidableEq

/-- `XRFResult`: a measurement result with a repeating `layer` subsection
and a measurement date. -/
structure XRFResult where
  name : Option String := none
  date : Option String := none
  layer : List XRFLayer := []
  deriving DecidableEq

/-- `CompositeSystemReference` restricted to the only field this schema
sets, `lab_id`.  The class itself lives in `nomad.datamodel` (outside this
repository); per the schema's interface its equality — used by the
`sample not in list_of_samples` membership test — is by identifier value,
which structural equality of this one-field structure captures. -/
structure CompositeSystemReference where
  lab_id : Option String := none
  deriving DecidableEq

/-- `XRFSettings`: instrument/acquisition parameters.  All quantities are
optional and the schema never sets any of them. -/
structure XRFSettings where
  xray_energy : Option Rat := none
  current : Option Rat := none
  spot_size : Option Rat := none
  integration_time : Option Rat := none
  element_line : Option String := none
  deriving DecidableEq

/-- The `ELNXRayFluorescence` record restricted to the fields the pipeline
reads or writes: the `data_file` quantity, the `xrf_settings` subsection,
the repeating `results` subsection and the inherited repeating `samples`
subsection. -/
structure ELNXRayFluorescence where
  data_file : Option String := none
  xrf_settings : Option XRFSettings := none
  results : List XRFResult := []
  samples : List CompositeSystemReference := []
  deriving DecidableEq

/-- The reader functions of `nomad_ubik_plugin.schema_packages.XRFreader`
(a module of this repository not present under `src/`); the schema only
selects and invokes them, so each is an opaque tag. -/
inductive ReadFunction where
  | read_xrf_txt
  deriving DecidableEq

/-- Python `str.endswith(suffix)`: the character sequence of `s` ends with
that of `suffix` (modelled over the strings' character lists). -/
def py_endswith (s suffix : String) : Bool :=
  suffix.data.isSuffixOf s.data

/-- `ELNXRayFluorescence.get_read_function`: returns `XRFreader.read_xrf_txt`
when `self.data_file` ends with `'.txt'`; every other suffix falls off the
end of the method, returning Python `None`. -/
def get_read_function (data_file : String) : Option ReadFunction :=
  if py_endswith data_file ".txt" then some ReadFunction.read_xrf_txt else none

/-- Construction of one `XRFElementalComposition` from one element entry
(the inner loop body of `write_xrf_data`). -/
def elementOf (element : String) (attributes : RawAttrs) : XRFElementalComposition :=
  { element := some element
    mass_fraction := attributes.mass_fraction
    atomic_fraction := attributes.atomic_fraction
    line := attributes.line
    intensity_peak := attributes.intensity_peak
    intensity_background := attributes.intensity_background
    intensity_background_2 := attributes.intensity_background_2 }

/-- Construction of one `XRFLayer` from one layer entry (the middle loop
body of `write_xrf_data`): `content.get('elements', {})` makes a missing
`'elements'` key an empty iteration. -/
def buildLayer (layer : String) (content : RawLayerContent) : XRFLayer :=
  { name := some layer
    thickness := content.thickness
    elements := (content.elements.getD []).map fun q => elementOf q.1 q.2 }

/-- `data.get('layers', []).items()`: when the `'layers'` key is present its
dict's items are iterated; when it is absent the default is the *list* `[]`
and `.items()` raises `AttributeError` (the neighbouring
`content.get('elements', {})` uses a dict default instead). -/
def getLayersItems (data : RawEntry) : Except String (List (String × RawLayerContent)) :=
  match data.layers with
  | some items => Except.ok items
  | none => Except.error "AttributeError: list object has no attribute items"

/-- The sample reference built for one raw entry:
`CompositeSystemReference(lab_id=data.get('sample_name', None))`. -/
def sampleOf (data : RawEntry) : CompositeSystemReference :=
  { lab_id := data.sample_name }

/-- One deduplicating append: `if sample not in list_of_samples:` append. -/
def dstep {α : Type} [DecidableEq α] (acc : List α) (a : α) : List α :=
  if a ∈ acc then acc else acc ++ [a]

/-- The sample-list update of one iteration of `write_xrf_data`. -/
def sampleStep (ss : List CompositeSystemReference) (data : RawEntry) :
    List CompositeSystemReference :=
  dstep ss (sampleOf data)

/-- The `XRFResult` built for one raw entry when its `'layers'` key is
present (per-entity `normalize` is the identity on these fields). -/
def resultOf (data : RawEntry) : XRFResult :=
  { name := data.application
    date := data.date
    layer := (data.layers.getD []).map fun p => buildLayer p.1 p.2 }

/-- The body of the `for data in xrf_dict.values()` loop of
`write_xrf_data`, threading the results and samples accumulators. -/
def processEntry (st : List XRFResult × List CompositeSystemReference) (data : RawEntry) :
    Except String (List XRFResult × List CompositeSystemReference) :=
  match getLayersItems data with
  | Except.error e => Except.error e
  | Except.ok items =>
    let list_of_XRFLayers := items.map fun p => buildLayer p.1 p.2
    let sample := sampleOf data
    let list_of_samples := if sample ∈ st.2 then st.2 else st.2 ++ [sample]
    let result : XRFResult :=
      { name := data.application, date := data.date, layer := list_of_XRFLayers }
    Except.ok (st.1 ++ [result], list_of_samples)

/-- The whole loop of `write_xrf_data` over the values of `xrf_dict`,
producing `list_of_results` and `list_of_samples`. -/
def build_lists :
    List RawEntry → List XRFResult × List CompositeSystemReference →
      Except String (List XRFResult × List CompositeSystemReference)
  | [], st => Except.ok st
  | data :: rest, st =>
    match processEntry st data with
    | Except.error e => Except.error e
    | Except.ok st' => build_lists rest st'

/-- Modelled from the spec: `merge_opt` is the scalar-field case of
`merge_sections` from `nomad_measurements.utils`, a collaborator outside
this repository — for every field on the target, a value already set on
`current` is kept, otherwise the value from `derived` is written. -/
def merge_opt {α : Type} (current derived : Option α) : Option α :=
  match current with
  | some v => some v
  | none => derived

/-- Modelled from the spec: `merge_list` is the list-valued-field case of
`merge_sections` — a non-empty list on `current` is kept, an empty one is
replaced wholesale by `derived`'s list (no element-wise merge). -/
def merge_list {α : Type} (current derived : List α) : List α :=
  if current.isEmpty then derived else current

/-- Modelled from the spec: `merge_sections(self, xrf, logger)` from
`nomad_measurements.utils` applied to the fields of
`ELNXRayFluorescence`, per top-level field. -/
def merge_sections (current derived : ELNXRayFluorescence) : ELNXRayFluorescence :=
  { data_file := merge_opt current.data_file derived.data_file
    xrf_settings := merge_opt current.xrf_settings derived.xrf_settings
    results := merge_list current.results derived.results
    samples := merge_list current.samples derived.samples }

/-- The freshly built record
`ELNXRayFluorescence(results=…, xrf_settings=XRFSettings(), samples=…)`:
`data_file` is never set and the settings are a fresh default
`XRFSettings()` (its `normalize` is the identity). -/
def built_record (list_of_results : List XRFResult)
    (list_of_samples : List CompositeSystemReference) : ELNXRayFluorescence :=
  { data_file := none
    xrf_settings := some {}
    results := list_of_results
    samples := list_of_samples }

/-- `ELNXRayFluorescence.write_xrf_data(self, xrf_dict, archive, logger)`:
builds the results and samples lists from the values of `xrf_dict`, a fresh
default `XRFSettings`, and merges the derived record into `self`. -/
def write_xrf_data (self : ELNXRayFluorescence)
    (xrf_dict : List (String × RawEntry)) : Except String ELNXRayFluorescence :=
  match build_lists (xrf_dict.map Prod.snd) ([], []) with
  | Except.error e => Except.error e
  | Except.ok (list_of_results, list_of_samples) =>
    Except.ok (merge_sections self (built_record list_of_results list_of_samples))

/-- Observable outcome of one `ELNXRayFluorescence.normalize` call that did
not raise: the record, the warnings emitted through the logger, and whether
the superclass (baseline) normalization ran. -/
structure NormalizeOutcome where
  record : ELNXRayFluorescence
  warnings : List String
  superRan : Bool
  deriving DecidableEq

/-- `ELNXRayFluorescence.normalize(self, archive, logger)`.
`loggerPresent` models `logger is not None`; `readerOutput` models what
`read_function(file.name, logger)` would do (its returned dict, with a
falsy `None`/empty return folded to `[]`, or the exception it raises) — the
reader itself lives in the `XRFreader` module, outside `src/`.  Exceptions
from the reader (and from `write_xrf_data`) are not caught, so on those
paths no outcome is produced and `super().normalize` does not run. -/
def eln_normalize (self : ELNXRayFluorescence) (loggerPresent : Bool)
    (readerOutput : Except String (List (String × RawEntry))) :
    Except String NormalizeOutcome :=
  match self.data_file with
  | none => Except.ok { record := self, warnings := [], superRan := true }
  | some f =>
    match get_read_function f with
    | none =>
      Except.ok
        { record := self
          warnings :=
            if loggerPresent then
              ["No compatible reader found for the file: " ++ f] else []
          superRan := true }
    | some _ =>
      match readerOutput with
      | Except.error e => Except.error e
      | Except.ok xrf_dict =>
        if xrf_dict.isEmpty then
          Except.ok
            { record := self
              warnings :=
                if loggerPresent then ["No XRF data found in file: " ++ f] else []
              superRan := true }
        else
          match write_xrf_data self xrf_dict with
          | Except.error e => Except.error e
          | Except.ok self' =>
            Except.ok { record := self', warnings := [], superRan := true }

/-- First-occurrence deduplication of a list (what the repeated
`if sample not in list_of_samples` append computes over the whole run). -/
def dedup_keep_first {α : Type} [DecidableEq α] (l : List α) : List α :=
  l.foldl dstep []

/-- Spec-side measure for the sample-count claim: the distinct non-empty
`sample_name` values of the raw entries, in first-occurrence order. -/
def distinct_nonempty_sample_names (entries : List RawEntry) : List String :=
  dedup_keep_first ((entries.filterMap RawEntry.sample_name).filter fun s => s ≠ "")

/-! ### Helper lemmas about the loop of `write_xrf_data` -/

/-- When the entry's `'layers'` key is present, one loop iteration appends
exactly one result (the entry's `resultOf`) and deduplicates its sample. -/
theorem processEntry_ok (data : RawEntry) (L : List (String × RawLayerContent))
    (hL : data.layers = some L) (rs : List XRFResult)
    (ss : List CompositeSystemReference) :
    processEntry (rs, ss) data =
      Except.ok (rs ++ [resultOf data], sampleStep ss data) := by
  simp [processEntry, getLayersItems, hL, resultOf, sampleStep, dstep, sampleOf]

/-- When every entry carries a `'layers'` key, the whole loop succeeds and
appends one result per entry in order, folding the sample deduplication. -/
theorem build_lists_ok (entries : List RawEntry) (rs : List XRFResult)
    (ss : List CompositeSystemReference)
    (h : ∀ e ∈ entries, e.layers.isSome) :
    build_lists entries (rs, ss) =
      Except.ok (rs ++ entries.map resultOf, entries.foldl sampleStep ss) := by
  induction entries generalizing rs ss with
  | nil => simp [build_lists]
  | cons a l ih =>
    obtain ⟨L, hL⟩ := Option.isSome_iff_exists.mp (h a (List.mem_cons_self a l))
    rw [build_lists, processEntry_ok a L hL rs ss]
    show build_lists l (rs ++ [resultOf a], sampleStep ss a) = _
    rw [ih _ _ fun e he => h e (List.mem_cons_of_mem a he)]
    simp

/-- When every entry carries a `'layers'` key, `write_xrf_data` succeeds and
merges the record built from the mapped results and deduplicated samples. -/
theorem write_xrf_data_ok (self : ELNXRayFluorescence)
    (xrf_dict : List (String × RawEntry))
    (h : ∀ p ∈ xrf_dict, p.2.layers.isSome) :
    write_xrf_data self xrf_dict =
      Except.ok (merge_sections self
        (built_record ((xrf_dict.map Prod.snd).map resultOf)
          ((xrf_dict.map Prod.snd).foldl sampleStep []))) := by
  rw [write_xrf_data, build_lists_ok]
  · rfl
  · intro e he
    obtain ⟨p, hp, rfl⟩ := List.mem_map.mp he
    exact h p hp

/-- The sample fold is the generic first-occurrence fold over the per-entry
sample references. -/
theorem foldl_sampleStep_map (entries : List RawEntry)
    (ss : List CompositeSystemReference) :
    entries.foldl sampleStep ss = (entries.map sampleOf).foldl dstep ss := by
  rw [List.foldl_map]
  rfl

/-- The first-occurrence fold preserves `Nodup`. -/
theorem foldl_dstep_nodup {α : Type} [DecidableEq α] (l : List α) (acc : List α)
    (hacc : acc.Nodup) : (l.foldl dstep acc).Nodup := by
  induction l generalizing acc with
  | nil => simpa using hacc
  | cons a l ih =>
    simp only [List.foldl_cons]
    apply ih
    by_cases h : a ∈ acc
    · simpa [dstep, h] using hacc
    · simp [dstep, h, List.nodup_append, hacc]

/-- Membership in the first-occurrence fold. -/
theorem mem_foldl_dstep {α : Type} [DecidableEq α] (l : List α) (acc : List α)
    (x : α) : x ∈ l.foldl dstep acc ↔ x ∈ acc ∨ x ∈ l := by
  induction l generalizing acc with
  | nil => simp
  | cons a l ih =>
    simp only [List.foldl_cons, ih, List.mem_cons]
    by_cases h : a ∈ acc
    · simp [dstep, h]
      constructor
      · tauto
      · rintro (hx | rfl | hx) <;> tauto
    · simp [dstep, h, or_assoc]

/-- Length of the first-occurrence deduplication: the number of distinct
values of the list. -/
theorem length_dedup_keep_first {α : Type} [DecidableEq α] (l : List α) :
    (dedup_keep_first l).length = l.toFinset.card := by
  have hnd : (dedup_keep_first l).Nodup := foldl_dstep_nodup l [] List.nodup_nil
  have hts : (dedup_keep_first l).toFinset = l.toFinset := by
    ext x
    simp only [List.mem_toFinset]
    simpa using mem_foldl_dstep l [] x
  rw [← hts, List.toFinset_card_of_nodup hnd]

/-- Inversion: a successful `write_xrf_data` call returns the merge of
`self` with a freshly built record. -/
theorem write_xrf_data_inv (self : ELNXRayFluorescence)
    (xrf_dict : List (String × RawEntry)) (rec : ELNXRayFluorescence)
    (h : write_xrf_data self xrf_dict = Except.ok rec) :
    ∃ rs ss, rec = merge_sections self (built_record rs ss) := by
  unfold write_xrf_data at h
  cases hb : build_lists (xrf_dict.map Prod.snd) ([], []) with
  | error e => rw [hb] at h; cases h
  | ok st =>
    obtain ⟨rs, ss⟩ := st
    rw [hb] at h
    injection h with h
    exact ⟨rs, ss, h.symm⟩

/-! ### Claim theorems -/

/-- C3: evaluation at the failing input — an entry missing its `'layers'`
key makes `write_xrf_data` raise an `AttributeError` (the
`data.get('layers', [])` default is a list, and `.items()` is then called
on it), while every other missing field propagates silently: an entry with
`'layers'` present and everything else absent succeeds with all fields
unset. -/
theorem missing_layers_key_raises :
    write_xrf_data {} [("m1", {})] =
      Except.error "AttributeError: list object has no attribute items" ∧
    write_xrf_data {} [("m1", { layers := some [("L1", {})] })] =
      Except.ok { xrf_settings := some {},
                  results := [{ layer := [{ name := some "L1" }] }],
                  samples := [{}] } :=
  ⟨rfl, rfl⟩

/-- C4: the merge performed at the end of `write_xrf_data` satisfies, per
top-level field F: if `current`'s F is already set to a value v, the merged
record has F = v regardless of `derived`; if `current`'s F is unset/empty
and `derived` has value w, the merged record has F = w; the list-valued
fields (results, samples) are replaced wholesale, never element-wise
merged. -/
theorem merge_prefers_current_else_derived (current derived : ELNXRayFluorescence) :
    (∀ v, current.data_file = some v →
      (merge_sections current derived).data_file = some v) ∧
    (current.data_file = none →
      (merge_sections current derived).data_file = derived.data_file) ∧
    (∀ s, current.xrf_settings = some s →
      (merge_sections current derived).xrf_settings = some s) ∧
    (current.xrf_settings = none →
      (merge_sections current derived).xrf_settings = derived.xrf_settings) ∧
    (current.results ≠ [] →
      (merge_sections current derived).results = current.results) ∧
    (current.results = [] →
      (merge_sections current derived).results = derived.results) ∧
    (current.samples ≠ [] →
      (merge_sections current derived).samples = current.samples) ∧
    (current.samples = [] →
      (merge_sections current derived).samples = derived.samples) := by
  refine ⟨fun v hv => ?_, fun hv => ?_, fun s hs => ?_, fun hs => ?_,
    fun hr => ?_, fun hr => ?_, fun hs => ?_, fun hs => ?_⟩ <;>
    simp_all [merge_sections, merge_opt, merge_list]

/-- C4 witness: a set `data_file` survives the merge unchanged while the
empty results list is replaced wholesale by the derived one. -/
theorem merge_prefers_current_else_derived_witness :
    (merge_sections { data_file := some "a.txt" }
      { data_file := some "b.txt", results := [{}] }).data_file = some "a.txt" ∧
    (merge_sections { data_file := some "a.txt" }
      { data_file := some "b.txt", results := [{}] }).results = [{}] :=
  ⟨(merge_prefers_current_else_derived _ _).1 "a.txt" rfl,
   (merge_prefers_current_else_derived _ _).2.2.2.2.2.1 rfl⟩

/-- C5: for every non-None `data_file` string, `get_read_function` returns
the concrete text reader `read_xrf_txt` if and only if the file name ends
with the suffix `'.txt'`; for every other suffix it resolves no reader. -/
theorem reader_selection_by_txt_suffix (data_file : String) :
    (get_read_function data_file = some ReadFunction.read_xrf_txt ↔
      py_endswith data_file ".txt" = true) ∧
    (py_endswith data_file ".txt" = false →
      get_read_function data_file = none) := by
  by_cases h : py_endswith data_file ".txt" <;> simp [get_read_function, h]

/-- C5 witness: the `.txt` suffix resolves the text reader, the `.csv`
suffix resolves none. -/
theorem reader_selection_by_txt_suffix_witness :
    get_read_function "a.txt" = some ReadFunction.read_xrf_txt ∧
    get_read_function "run.csv" = none :=
  ⟨(reader_selection_by_txt_suffix "a.txt").1.mpr (by decide),
   (reader_selection_by_txt_suffix "run.csv").2 (by decide)⟩

/-- C8: `write_xrf_data` constructs exactly one `XRFSettings` entity per
run, always the empty default with every field unset, never populated from
the raw per-measurement dictionary: whenever the call succeeds the derived
settings value merged into the record is the default, independent of the
input dict. -/
theorem settings_always_default (self : ELNXRayFluorescence)
    (xrf_dict : List (String × RawEntry)) (rec : ELNXRayFluorescence)
    (h : write_xrf_data self xrf_dict = Except.ok rec) :
    rec.xrf_settings =
      merge_opt self.xrf_settings
        (some { xray_energy := none, current := none, spot_size := none,
                integration_time := none, element_line := none }) := by
  obtain ⟨rs, ss, rfl⟩ := write_xrf_data_inv self xrf_dict rec h
  rfl

/-- C8 witness: a run over a one-entry dict leaves the fresh default
settings on the merged record. -/
theorem settings_always_default_witness :
    ({ xrf_settings := some {}, results := [{}],
       samples := [{}] } : ELNXRayFluorescence).xrf_settings =
      some { xray_energy := none, current := none, spot_size := none,
             integration_time := none, element_line := none } :=
  settings_always_default {} [("m1", { layers := some [] })] _ rfl

/-- C9: with `data_file` set and a reader resolved for its suffix, an
exception raised by the reader propagates out of `normalize` unmodified:
the call produces no outcome, so no partial results are attached and the
baseline superclass normalization does not run. -/
theorem reader_exception_propagates (self : ELNXRayFluorescence) (f : String)
    (rf : ReadFunction) (e : String) (loggerPresent : Bool)
    (hf : self.data_file = some f) (hr : get_read_function f = some rf) :
    eln_normalize self loggerPresent (Except.error e) = Except.error e := by
  simp [eln_normalize, hf, hr]

/-- C9 witness: a reader exception on a `.txt` file propagates unmodified. -/
theorem reader_exception_propagates_witness :
    eln_normalize { data_file := some "run.txt" } true (Except.error "boom") =
      Except.error "boom" :=
  reader_exception_propagates _ "run.txt" ReadFunction.read_xrf_txt "boom" true
    rfl rfl

/-- C10: a `write_xrf_data` call on a record whose `data_file` field is set
leaves that field unchanged: the freshly built derived record never sets
`data_file`, and the merge prefers the current record's value. -/
theorem data_file_preserved_by_write (self : ELNXRayFluorescence)
    (xrf_dict : List (String × RawEntry)) (rec : ELNXRayFluorescence)
    (f : String) (hf : self.data_file = some f)
    (h : write_xrf_data self xrf_dict = Except.ok rec) :
    rec.data_file = some f ∧
    ∀ rs ss, (built_record rs ss).data_file = none := by
  obtain ⟨rs, ss, rfl⟩ := write_xrf_data_inv self xrf_dict rec h
  exact ⟨by simp [merge_sections, built_record, merge_opt, hf],
    fun _ _ => rfl⟩

/-- C10 witness: parsing an empty dict with `data_file` set to `a.txt`
leaves the reference untouched. -/
theorem data_file_preserved_by_write_witness :
    ({ data_file := some "a.txt",
       xrf_settings := some {} } : ELNXRayFluorescence).data_file =
      some "a.txt" :=
  (data_file_preserved_by_write { data_file := some "a.txt" } [] _ "a.txt"
    rfl rfl).1

/-- C1 counterexample: on a one-entry input whose entry lacks the
`'layers'` key, `write_xrf_data` raises an `AttributeError` instead of
building exactly one result. -/
theorem write_results_count_cex :
    write_xrf_data {} [("meas1", { application := some "coating check" })] =
      Except.error "AttributeError: list object has no attribute items" :=
  rfl

/-- C1 (amended): for every raw input mapping with N measurement entries,
each of which carries a `'layers'` mapping, `write_xrf_data` builds exactly
N `XRFResult` entities, one per raw-dict value, appended to the results
list in the iteration order of the input mapping, and then merges them into
the record. -/
theorem write_builds_results_in_order (self : ELNXRayFluorescence)
    (xrf_dict : List (String × RawEntry))
    (h : ∀ p ∈ xrf_dict, p.2.layers.isSome) :
    build_lists (xrf_dict.map Prod.snd) ([], []) =
      Except.ok ((xrf_dict.map Prod.snd).map resultOf,
        (xrf_dict.map Prod.snd).foldl sampleStep []) ∧
    ((xrf_dict.map Prod.snd).map resultOf).length = xrf_dict.length ∧
    write_xrf_data self xrf_dict =
      Except.ok (merge_sections self
        (built_record ((xrf_dict.map Prod.snd).map resultOf)
          ((xrf_dict.map Prod.snd).foldl sampleStep []))) := by
  have hv : ∀ e ∈ xrf_dict.map Prod.snd, e.layers.isSome := by
    intro e he
    obtain ⟨p, hp, rfl⟩ := List.mem_map.mp he
    exact h p hp
  refine ⟨?_, by simp, write_xrf_data_ok self xrf_dict h⟩
  simpa using build_lists_ok (xrf_dict.map Prod.snd) [] [] hv

/-- C1 witness: a concrete two-entry input yields exactly the two results
in input order. -/
theorem write_builds_results_in_order_witness :
    build_lists [{ sample_name := some "S1", layers := some [] },
                 { application := some "app", layers := some [] }] ([], []) =
      Except.ok ([{ }, { name := some "app" }],
        [{ lab_id := some "S1" }, { }]) :=
  (write_builds_results_in_order {}
    [("m1", { sample_name := some "S1", layers := some [] }),
     ("m2", { application := some "app", layers := some [] })]
    (by decide)).1

/-- C2 counterexample: an entry without a `sample_name` still emits one
sample reference (with unset identifier) although it contributes zero
distinct non-empty sample names; and an entry with a sample name but no
`'layers'` key makes the call raise, emitting no reference although it has
one distinct non-empty sample name. -/
theorem sample_dedup_cex :
    (write_xrf_data {} [("m1", { layers := some [] })]).map
        (fun r => r.samples.length) = Except.ok 1 ∧
    (distinct_nonempty_sample_names [{ layers := some [] }]).length = 0 ∧
    (write_xrf_data {} [("m2", { sample_name := some "S1" })]).map
        (fun r => r.samples.length) =
      Except.error "AttributeError: list object has no attribute items" ∧
    (distinct_nonempty_sample_names [{ sample_name := some "S1" }]).length = 1 :=
  ⟨rfl, rfl, rfl, rfl⟩

/-- C2 (amended): for every raw input mapping in which every entry carries
a `'layers'` mapping, the sample references emitted by `write_xrf_data` are
the first-occurrence deduplication of the per-entry references — one per
distinct `lab_id` value, where a missing `sample_name` yields the unset
identifier, which deduplicates like any other value — so repeated identical
sample names produce exactly one reference, the emitted count is the number
of distinct `lab_id` values, and the list never contains two references
with equal identifiers. -/
theorem sample_dedup_first_occurrence (xrf_dict : List (String × RawEntry))
    (h : ∀ p ∈ xrf_dict, p.2.layers.isSome) :
    build_lists (xrf_dict.map Prod.snd) ([], []) =
      Except.ok ((xrf_dict.map Prod.snd).map resultOf,
        dedup_keep_first ((xrf_dict.map Prod.snd).map sampleOf)) ∧
    ((dedup_keep_first ((xrf_dict.map Prod.snd).map sampleOf)).map
      CompositeSystemReference.lab_id).Nodup ∧
    (dedup_keep_first ((xrf_dict.map Prod.snd).map sampleOf)).length =
      ((xrf_dict.map Prod.snd).map sampleOf).toFinset.card := by
  have hv : ∀ e ∈ xrf_dict.map Prod.snd, e.layers.isSome := by
    intro e he
    obtain ⟨p, hp, rfl⟩ := List.mem_map.mp he
    exact h p hp
  have hnd : (dedup_keep_first ((xrf_dict.map Prod.snd).map sampleOf)).Nodup :=
    foldl_dstep_nodup _ [] List.nodup_nil
  refine ⟨?_, ?_, length_dedup_keep_first _⟩
  · have hb := build_lists_ok (xrf_dict.map Prod.snd) [] [] hv
    rw [foldl_sampleStep_map] at hb
    simpa [dedup_keep_first] using hb
  · refine hnd.map ?_
    intro a b hab
    cases a
    cases b
    simpa using hab

/-- C2 witness: three entries with sample names S1, S1, S2 emit exactly the
two references S1 and S2, in first-occurrence order. -/
theorem sample_dedup_first_occurrence_witness :
    build_lists [{ sample_name := some "S1", layers := some [] },
                 { sample_name := some "S1", layers := some [] },
                 { sample_name := some "S2", layers := some [] }] ([], []) =
      Except.ok ([{ }, { }, { }],
        [{ lab_id := some "S1" }, { lab_id := some "S2" }]) :=
  (sample_dedup_first_occurrence
    [("m1", { sample_name := some "S1", layers := some [] }),
     ("m2", { sample_name := some "S1", layers := some [] }),
     ("m3", { sample_name := some "S2", layers := some [] })]
    (by decide)).1

/-- C6: with `data_file` set and a logger present, if no reader resolves
for the file's suffix, or the resolved reader returns an empty/falsy
result, `normalize` emits exactly one warning through the logger, raises no
exception, attaches zero parsed results (the record is unchanged), and
still runs the baseline superclass normalization afterward. -/
theorem normalize_degrades_to_warning (self : ELNXRayFluorescence)
    (f : String) (readerOutput : Except String (List (String × RawEntry)))
    (hf : self.data_file = some f)
    (hcase : get_read_function f = none ∨ readerOutput = Except.ok []) :
    (eln_normalize self true readerOutput).map
        (fun o => (o.record, o.warnings.length, o.superRan)) =
      Except.ok (self, 1, true) := by
  rcases hcase with hr | hro
  · simp [eln_normalize, hf, hr, Except.map]
  · cases hg : get_read_function f with
    | none => simp [eln_normalize, hf, hg, Except.map]
    | some rf => simp [eln_normalize, hf, hg, hro, Except.map]

/-- C6 witness: an unsupported `.csv` suffix degrades to one warning with
the record unchanged and the baseline normalization still run. -/
theorem normalize_degrades_to_warning_witness :
    (eln_normalize { data_file := some "run.csv" } true (Except.ok [])).map
        (fun o => (o.record, o.warnings.length, o.superRan)) =
      Except.ok ({ data_file := some "run.csv" }, 1, true) :=
  normalize_degrades_to_warning { data_file := some "run.csv" } "run.csv"
    (Except.ok []) rfl (Or.inl rfl)

/-- C7: for a raw entry whose `'layers'` mapping holds layers in input
order, the loop body of `write_xrf_data` appends exactly one result whose
layer sequence has the input length in input order; each layer carries its
input name and thickness and an element sequence of the corresponding
input length in input order, with all six optional fields passed through
unchanged in value. -/
theorem layers_elements_roundtrip (data : RawEntry)
    (L : List (String × RawLayerContent)) (hL : data.layers = some L)
    (rs : List XRFResult) (ss : List CompositeSystemReference) :
    processEntry (rs, ss) data =
      Except.ok (rs ++ [resultOf data], sampleStep ss data) ∧
    (resultOf data).layer = L.map (fun p => buildLayer p.1 p.2) ∧
    (resultOf data).layer.length = L.length ∧
    (∀ p ∈ L, (buildLayer p.1 p.2).name = some p.1 ∧
      (buildLayer p.1 p.2).thickness = p.2.thickness ∧
      (buildLayer p.1 p.2).elements.length = (p.2.elements.getD []).length ∧
      (buildLayer p.1 p.2).elements =
        (p.2.elements.getD []).map (fun q => elementOf q.1 q.2) ∧
      ∀ q ∈ p.2.elements.getD [],
        (elementOf q.1 q.2).element = some q.1 ∧
        (elementOf q.1 q.2).mass_fraction = q.2.mass_fraction ∧
        (elementOf q.1 q.2).atomic_fraction = q.2.atomic_fraction ∧
        (elementOf q.1 q.2).line = q.2.line ∧
        (elementOf q.1 q.2).intensity_peak = q.2.intensity_peak ∧
        (elementOf q.1 q.2).intensity_background = q.2.intensity_background ∧
        (elementOf q.1 q.2).intensity_background_2 =
          q.2.intensity_background_2) := by
  refine ⟨processEntry_ok data L hL rs ss, by simp [resultOf, hL],
    by simp [resultOf, hL], ?_⟩
  intro p hp
  refine ⟨rfl, rfl, by simp [buildLayer], rfl, ?_⟩
  intro q hq
  exact ⟨rfl, rfl, rfl, rfl, rfl, rfl, rfl⟩

/-- C7 witness: one layer `L1` of thickness 50 with one element `Fe`
(mass fraction 4/5, line `Ka1`) round-trips unchanged. -/
theorem layers_elements_roundtrip_witness :
    processEntry ([], [])
        { sample_name := some "S1",
          layers := some [("L1",
            { thickness := some 50,
              elements := some [("Fe",
                { mass_fraction := some (4/5), line := some "Ka1" })] })] } =
      Except.ok
        ([{ layer := [{ name := some "L1",
                        thickness := some 50,
                        elements := [{ element := some "Fe",
                                       mass_fraction := some (4/5),
                                       line := some "Ka1" }] }] }],
         [{ lab_id := some "S1" }]) :=
  (layers_elements_roundtrip _ _ rfl [] []).1
